import Mathlib

/-!
Shallow embedding of the inventory-to-Terraform generation core of
`gcp_to_terraform.py` (class GCPToTerraform) and `gcp_org_to_terraform.py`.

Python records coming back from `gcloud ... --format=json` are loosely typed
nested dictionaries; they are modelled by the tagged value type `PVal`.
JSON numbers are modelled as integers (the only non-integer numeric constant
in the embedded generators is the literal default `0.5` of flow sampling,
which is handled at its use site by `pgetShow`).  Python exceptions raised by
attribute access on ill-shaped values are modelled by `Except PyErr`.
-/

/-- Dynamic Python value: None, bool, int, str, list, dict (string keys). -/
inductive PVal where
  | vnone
  | vbool (b : Bool)
  | vint  (n : Int)
  | vstr  (s : String)
  | vlist (xs : List PVal)
  | vdict (kvs : List (String × PVal))

/-- Python exception classes that the embedded code can raise. -/
inductive PyErr where
  | attributeError
  | keyError
  | typeError
deriving DecidableEq, Repr

/-- First-match association lookup; Python dicts have unique keys. -/
def lookupKV : List (String × PVal) → String → Option PVal
  | [], _ => none
  | (k, v) :: rest, key => if k = key then some v else lookupKV rest key

/-- Python truthiness of a value (`if v:`). -/
def truthy : PVal → Bool
  | .vnone => false
  | .vbool b => b
  | .vint n => n != 0
  | .vstr s => s != ""
  | .vlist xs => !xs.isEmpty
  | .vdict kvs => !kvs.isEmpty

/-- Models `v.get(key, default)`: dict lookup with default, `AttributeError`
on any non-dict receiver. -/
def pget (v : PVal) (key : String) (dflt : PVal) : Except PyErr PVal :=
  match v with
  | .vdict kvs => .ok ((lookupKV kvs key).getD dflt)
  | _ => .error .attributeError

/-- Models `v[key]`: dict indexing, `KeyError` when the key is missing,
`TypeError` on a non-dict receiver. -/
def pitem (v : PVal) (key : String) : Except PyErr PVal :=
  match v with
  | .vdict kvs =>
      match lookupKV kvs key with
      | some x => .ok x
      | none => .error .keyError
  | _ => .error .typeError

/-- Models `for x in v`: lists yield elements, strings yield one-character
strings, dicts yield their keys; other values raise `TypeError`. -/
def piter : PVal → Except PyErr (List PVal)
  | .vlist xs => .ok xs
  | .vstr s => .ok (s.data.map (fun c => .vstr (String.singleton c)))
  | .vdict kvs => .ok (kvs.map (fun kv => .vstr kv.1))
  | _ => .error .typeError

/-- The single-quote character (escaped form used by Python `repr`). -/
def sqc : Char := Char.ofNat 39

/-- Escape one character for Python `repr` of a string quoted by `q`. -/
def pyReprEsc (q : Char) (c : Char) : String :=
  if c = '\\' then "\\\\"
  else if c = '\n' then "\\n"
  else if c = '\r' then "\\r"
  else if c = '\t' then "\\t"
  else if c = q then "\\" ++ String.singleton q
  else String.singleton c

/-- Python `repr` of a string: single quotes by default, double quotes when
the text contains a single quote but no double quote. -/
def pyReprStr (s : String) : String :=
  if s.data.contains sqc ∧ ¬ s.data.contains '"' then
    "\"" ++ String.join (s.data.map (pyReprEsc '"')) ++ "\""
  else
    String.singleton sqc ++ String.join (s.data.map (pyReprEsc sqc)) ++ String.singleton sqc

mutual

/-- Python `repr` of a value (as far as the embedded generators can observe). -/
def pyRepr : PVal → String
  | .vnone => "None"
  | .vbool b => if b then "True" else "False"
  | .vint n => toString n
  | .vstr s => pyReprStr s
  | .vlist xs => "[" ++ pyReprList xs ++ "]"
  | .vdict kvs => "\x7b" ++ pyReprKVs kvs ++ "\x7d"

/-- Comma-separated `repr` of list elements. -/
def pyReprList : List PVal → String
  | [] => ""
  | [x] => pyRepr x
  | x :: y :: rest => pyRepr x ++ ", " ++ pyReprList (y :: rest)

/-- Comma-separated `repr` of dict items. -/
def pyReprKVs : List (String × PVal) → String
  | [] => ""
  | [(k, v)] => pyReprStr k ++ ": " ++ pyRepr v
  | (k, v) :: y :: rest => pyReprStr k ++ ": " ++ pyRepr v ++ ", " ++ pyReprKVs (y :: rest)

end

/-- Python `str()` of a value, as interpolated by f-strings. -/
def pyStr : PVal → String
  | .vstr s => s
  | v => pyRepr v

/-- Escape one character for a JSON string literal (`json.dumps`). -/
def jsonEsc (c : Char) : String :=
  if c = '"' then "\\\""
  else if c = '\\' then "\\\\"
  else if c = '\n' then "\\n"
  else if c = '\r' then "\\r"
  else if c = '\t' then "\\t"
  else String.singleton c

mutual

/-- Models `json.dumps(v)` with its default separators. -/
def jsonDumps : PVal → String
  | .vnone => "null"
  | .vbool b => if b then "true" else "false"
  | .vint n => toString n
  | .vstr s => "\"" ++ String.join (s.data.map jsonEsc) ++ "\""
  | .vlist xs => "[" ++ jsonList xs ++ "]"
  | .vdict kvs => "\x7b" ++ jsonKVs kvs ++ "\x7d"

/-- Comma-separated `json.dumps` of list elements. -/
def jsonList : List PVal → String
  | [] => ""
  | [x] => jsonDumps x
  | x :: y :: rest => jsonDumps x ++ ", " ++ jsonList (y :: rest)

/-- Comma-separated `json.dumps` of dict items. -/
def jsonKVs : List (String × PVal) → String
  | [] => ""
  | [(k, v)] => "\"" ++ String.join (k.data.map jsonEsc) ++ "\": " ++ jsonDumps v
  | (k, v) :: y :: rest =>
      "\"" ++ String.join (k.data.map jsonEsc) ++ "\": " ++ jsonDumps v ++ ", " ++ jsonKVs (y :: rest)

end

/-- Models Python `s.lower()` (charwise ASCII lowering). -/
def strToLower (s : String) : String :=
  String.mk (s.data.map Char.toLower)

/-- Charwise replacement; models Python `s.replace(a, b)` for one-character
`a` and `b`, where substring replacement coincides with a character map. -/
def replCh (a b : Char) (s : String) : String :=
  String.mk (s.data.map (fun c => if c = a then b else c))

/-- Embeds `sanitize_name` of `gcp_to_terraform.py` (line 1115):
`name.replace(".", "_").replace("-", "_").replace("/", "_")`. -/
def sanitize_name (name : String) : String :=
  replCh '/' '_' (replCh '-' '_' (replCh '.' '_' name))

namespace Org

/-- Embeds `sanitize_name` of `gcp_org_to_terraform.py` (line 235), which
additionally replaces spaces. -/
def sanitize_name (name : String) : String :=
  replCh ' ' '_' (replCh '/' '_' (replCh '-' '_' (replCh '.' '_' name)))

end Org

/-- Boolean check that `p` is a prefix of `l`. -/
def leadsWith : List Char → List Char → Bool
  | [], _ => true
  | _ :: _, [] => false
  | a :: asx, b :: bs => a == b && leadsWith asx bs

/-- Boolean substring search over character lists. -/
def hasSub (p : List Char) : List Char → Bool
  | [] => p.isEmpty
  | c :: rest => leadsWith p (c :: rest) || hasSub p rest

/-- String-level substring test: does `s` contain `pat`? -/
def containsStr (s pat : String) : Bool :=
  hasSub pat.data s.data

/-- Suffix of `l` after the first occurrence of `p`, if any. -/
def afterSub (p : List Char) : List Char → Option (List Char)
  | [] => if p.isEmpty then some [] else none
  | c :: rest =>
      if leadsWith p (c :: rest) then some ((c :: rest).drop p.length)
      else afterSub p rest

/-- String-level: the text after the first occurrence of `pat` in `s`. -/
def afterStr (s pat : String) : Option String :=
  (afterSub pat.data s.data).map String.mk

/-- Number of (possibly overlapping) occurrences of `p` in the list. -/
def countSub (p : List Char) : List Char → Nat
  | [] => 0
  | c :: rest => (if leadsWith p (c :: rest) then 1 else 0) + countSub p rest

/-- String-level occurrence count of `pat` in `s`. -/
def countStr (s pat : String) : Nat :=
  countSub pat.data s.data

/-- Checks that the given patterns occur in `s` in order, each one strictly
after the end of the previous one. -/
def seqContains (s : String) : List String → Bool
  | [] => true
  | p :: ps =>
      match afterSub p.data s.data with
      | some rest => seqContains (String.mk rest) ps
      | none => false

/-- Splits a character list on a separator character (Python `s.split(c)`). -/
def splitOnChar (c : Char) : List Char → List (List Char)
  | [] => [[]]
  | x :: rest =>
      match splitOnChar c rest with
      | [] => [[x]]
      | h :: t => if x = c then [] :: h :: t else (x :: h) :: t

/-- Models `s.split('/')[-1]`: the last `/`-separated segment. -/
def lastSeg (s : String) : String :=
  String.mk ((splitOnChar '/' s.data).getLastD [])

/-- Models `self.sanitize_name(v)` applied to a dynamic value: `str.replace`
raises `AttributeError` on a non-string receiver. -/
def psan : PVal → Except PyErr String
  | .vstr s => .ok (sanitize_name s)
  | _ => .error .attributeError

/-- Models `v.split('/')[-1]` on a dynamic value. -/
def psplitLast : PVal → Except PyErr String
  | .vstr s => .ok (lastSeg s)
  | _ => .error .attributeError

/-- Models `v.startswith(p)` on a dynamic value. -/
def pstartswith (v : PVal) (p : String) : Except PyErr Bool :=
  match v with
  | .vstr s => .ok (leadsWith p.data s.data)
  | _ => .error .attributeError

/-- Models `str(d.get(key, 0.5))`-style interpolation where the default is a
non-string constant whose Python `str()` rendering is `dflt`. -/
def pgetShow (v : PVal) (key : String) (dflt : String) : Except PyErr String :=
  match v with
  | .vdict kvs =>
      match lookupKV kvs key with
      | some x => .ok (pyStr x)
      | none => .ok dflt
  | _ => .error .attributeError

/-- The in-memory inventory read by the generators: `self.project_id` and the
relevant entries of the `self.resources` dict (a missing key reads as `[]`
via `self.resources.get(kind, [])`). -/
structure Resources where
  project_id : String
  networks : List PVal := []
  subnets : List PVal := []
  firewalls : List PVal := []
  routes : List PVal := []

/-- Left-to-right concatenation of per-record emissions; an exception raised
while processing one record propagates, exactly as in the Python loops. -/
def concatM (f : PVal → Except PyErr String) : List PVal → Except PyErr String
  | [] => .ok ""
  | x :: rest => do
      let h ← f x
      let t ← concatM f rest
      .ok (h ++ t)

/-- Embeds the per-network body of `generate_network_tf`
(`gcp_to_terraform.py` lines 1123–1156). -/
def networkBlock (project_id : String) (net : PVal) : Except PyErr String := do
  let nameV ← pget net "name" (.vstr "")
  let tf_name ← psan nameV
  let autoV ← pget net "autoCreateSubnetworks" (.vbool false)
  let head :=
    "resource \"google_compute_network\" \"" ++ tf_name ++ "\" \x7b\n" ++
    "  name                    = \"" ++ pyStr nameV ++ "\"\n" ++
    "  project                 = \"" ++ project_id ++ "\"\n" ++
    "  auto_create_subnetworks = " ++ strToLower (pyStr autoV) ++ "\n"
  let descV ← pget net "description" .vnone
  let descSeg ← if truthy descV then do
      let d ← pitem net "description"
      pure ("  description             = \"" ++ pyStr d ++ "\"\n")
    else pure ""
  let rcV ← pget net "routingConfig" .vnone
  let rcSeg ← if truthy rcV then do
      let rc ← pitem net "routingConfig"
      let mode ← pget rc "routingMode" (.vstr "REGIONAL")
      pure ("  routing_mode            = \"" ++ pyStr mode ++ "\"\n")
    else pure ""
  let mtuV ← pget net "mtu" .vnone
  let mtuSeg ← if truthy mtuV then do
      let m ← pitem net "mtu"
      pure ("  mtu                     = " ++ pyStr m ++ "\n")
    else pure ""
  let ddrV ← pget net "deleteDefaultRoutesOnCreate" .vnone
  let ddrSeg := if truthy ddrV then "  delete_default_routes_on_create = true\n" else ""
  let ulaV ← pget net "enableUlaInternalIpv6" .vnone
  let ulaSeg := if truthy ulaV then "  enable_ula_internal_ipv6 = true\n" else ""
  let iprV ← pget net "internalIpv6Range" .vnone
  let iprSeg ← if truthy iprV then do
      let x ← pitem net "internalIpv6Range"
      pure ("  internal_ipv6_range     = \"" ++ pyStr x ++ "\"\n")
    else pure ""
  .ok (head ++ descSeg ++ rcSeg ++ mtuSeg ++ ddrSeg ++ ulaSeg ++ iprSeg ++ "\x7d\n\n")

/-- Embeds the per-subnet body of `generate_network_tf`
(`gcp_to_terraform.py` lines 1160–1228). -/
def subnetBlock (project_id : String) (subnet : PVal) : Except PyErr String := do
  let nameV ← pget subnet "name" (.vstr "")
  let tf_name ← psan nameV
  let netUrlV ← pget subnet "network" (.vstr "")
  let network_name ← if truthy netUrlV then psplitLast netUrlV else pure ""
  let cidrV ← pget subnet "ipCidrRange" (.vstr "")
  let regV ← pget subnet "region" (.vstr "")
  let region ← psplitLast regV
  let head :=
    "resource \"google_compute_subnetwork\" \"" ++ (tf_name ++ ("\" \x7b\n" ++
    ("  name          = \"" ++ (pyStr nameV ++ ("\"\n" ++
    ("  project       = \"" ++ (project_id ++ ("\"\n" ++
    ("  ip_cidr_range = \"" ++ (pyStr cidrV ++ ("\"\n" ++
    ("  region        = \"" ++ (region ++ ("\"\n" ++
    ("  network       = google_compute_network." ++ (sanitize_name network_name ++
      ".id\n"))))))))))))))))
  let descV ← pget subnet "description" .vnone
  let descSeg ← if truthy descV then do
      let d ← pitem subnet "description"
      pure ("  description   = \"" ++ pyStr d ++ "\"\n")
    else pure ""
  let purpV ← pget subnet "purpose" .vnone
  let purpSeg ← if truthy purpV then do
      let x ← pitem subnet "purpose"
      pure ("  purpose       = \"" ++ pyStr x ++ "\"\n")
    else pure ""
  let roleV ← pget subnet "role" .vnone
  let roleSeg ← if truthy roleV then do
      let x ← pitem subnet "role"
      pure ("  role          = \"" ++ pyStr x ++ "\"\n")
    else pure ""
  let pgaV ← pget subnet "privateIpGoogleAccess" .vnone
  let pgaSeg := if truthy pgaV then "  private_ip_google_access = true\n" else ""
  let p6V ← pget subnet "privateIpv6GoogleAccess" .vnone
  let p6Seg ← if truthy p6V then do
      let x ← pitem subnet "privateIpv6GoogleAccess"
      pure ("  private_ipv6_google_access = \"" ++ pyStr x ++ "\"\n")
    else pure ""
  let stV ← pget subnet "stackType" .vnone
  let stSeg ← if truthy stV then do
      let x ← pitem subnet "stackType"
      pure ("  stack_type    = \"" ++ pyStr x ++ "\"\n")
    else pure ""
  let i6aV ← pget subnet "ipv6AccessType" .vnone
  let i6aSeg ← if truthy i6aV then do
      let x ← pitem subnet "ipv6AccessType"
      pure ("  ipv6_access_type = \"" ++ pyStr x ++ "\"\n")
    else pure ""
  let i6cV ← pget subnet "ipv6CidrRange" .vnone
  let i6cSeg ← if truthy i6cV then do
      let x ← pitem subnet "ipv6CidrRange"
      pure ("  ipv6_cidr_range = \"" ++ pyStr x ++ "\"\n")
    else pure ""
  let secV ← pget subnet "secondaryIpRanges" .vnone
  let secSeg ← if truthy secV then do
      let secs ← pitem subnet "secondaryIpRanges"
      let elems ← piter secs
      let body ← concatM (fun sec_range => do
        let rn ← pget sec_range "rangeName" (.vstr "")
        let cr ← pget sec_range "ipCidrRange" (.vstr "")
        pure ("  secondary_ip_range \x7b\n" ++
              "    range_name    = \"" ++ pyStr rn ++ "\"\n" ++
              "    ip_cidr_range = \"" ++ pyStr cr ++ "\"\n" ++
              "  \x7d\n")) elems
      pure ("\n" ++ body)
    else pure ""
  let lcV ← pget subnet "logConfig" .vnone
  let lcSeg ← if truthy lcV then do
      let lc ← pitem subnet "logConfig"
      let enV ← pget lc "enable" .vnone
      if truthy enV then do
        let agg ← pget lc "aggregationInterval" (.vstr "INTERVAL_5_SEC")
        let fs ← pgetShow lc "flowSampling" "0.5"
        let md ← pget lc "metadata" (.vstr "INCLUDE_ALL_METADATA")
        let mfV ← pget lc "metadataFields" .vnone
        let mfSeg ← if truthy mfV then do
            let mf ← pitem lc "metadataFields"
            pure ("    metadata_fields      = " ++ jsonDumps mf ++ "\n")
          else pure ""
        let feV ← pget lc "filterExpr" .vnone
        let feSeg ← if truthy feV then do
            let fe ← pitem lc "filterExpr"
            pure ("    filter_expr          = \"" ++ pyStr fe ++ "\"\n")
          else pure ""
        pure ("\n  log_config \x7b\n" ++
              "    aggregation_interval = \"" ++ pyStr agg ++ "\"\n" ++
              "    flow_sampling        = " ++ fs ++ "\n" ++
              "    metadata             = \"" ++ pyStr md ++ "\"\n" ++
              mfSeg ++ feSeg ++ "  \x7d\n")
      else pure ""
    else pure ""
  .ok (head ++ (descSeg ++ (purpSeg ++ (roleSeg ++ (pgaSeg ++ (p6Seg ++ (stSeg ++
       (i6aSeg ++ (i6cSeg ++ (secSeg ++ (lcSeg ++ "\x7d\n\n")))))))))))

/-- Embeds `generate_network_tf` (`gcp_to_terraform.py` lines 1119–1230):
the network header and blocks, then the subnet header and blocks. -/
def generate_network_tf (r : Resources) : Except PyErr String := do
  let nets ← concatM (networkBlock r.project_id) r.networks
  let subs ← concatM (subnetBlock r.project_id) r.subnets
  .ok ("# VPC Networks\n\n" ++ nets ++ "# Subnets\n\n" ++ subs)

/-- Embeds one `allow` or `deny` entry of `generate_firewall_tf`
(`gcp_to_terraform.py` lines 1287–1303); `label` is `allow` or `deny`. -/
def fwRuleEntry (label : String) (entry : PVal) : Except PyErr String := do
  let protoV ← pget entry "IPProtocol" (.vstr "tcp")
  let portsV ← pget entry "ports" .vnone
  let portsSeg ← if truthy portsV then do
      let ps ← pitem entry "ports"
      pure ("    ports    = " ++ jsonDumps ps ++ "\n")
    else pure ""
  .ok ("\n  " ++ label ++ " \x7b\n" ++
       "    protocol = \"" ++ pyStr protoV ++ "\"\n" ++ portsSeg ++ "  \x7d\n")

/-- Embeds the per-rule body of `generate_firewall_tf`
(`gcp_to_terraform.py` lines 1236–1313). -/
def firewallBlock (project_id : String) (fw : PVal) : Except PyErr String := do
  let nameV ← pget fw "name" (.vstr "")
  let tf_name ← psan nameV
  let netUrlV ← pget fw "network" (.vstr "")
  let network_name ← if truthy netUrlV then psplitLast netUrlV else pure ""
  let head :=
    "resource \"google_compute_firewall\" \"" ++ tf_name ++ "\" \x7b\n" ++
    "  name    = \"" ++ pyStr nameV ++ "\"\n" ++
    "  project = \"" ++ project_id ++ "\"\n" ++
    "  network = google_compute_network." ++ sanitize_name network_name ++ ".id\n"
  let descV ← pget fw "description" .vnone
  let descSeg ← if truthy descV then do
      let d ← pitem fw "description"
      pure ("  description = \"" ++ pyStr d ++ "\"\n")
    else pure ""
  let dirV ← pget fw "direction" .vnone
  let dirSeg ← if truthy dirV then do
      let x ← pitem fw "direction"
      pure ("  direction = \"" ++ pyStr x ++ "\"\n")
    else pure ""
  let priV ← pget fw "priority" .vnone
  let priSeg ← if truthy priV then do
      let x ← pitem fw "priority"
      pure ("  priority = " ++ pyStr x ++ "\n")
    else pure ""
  let disV ← pget fw "disabled" .vnone
  let disSeg := if truthy disV then "  disabled = true\n" else ""
  let srV ← pget fw "sourceRanges" .vnone
  let srSeg ← if truthy srV then do
      let x ← pitem fw "sourceRanges"
      pure ("  source_ranges = " ++ jsonDumps x ++ "\n")
    else pure ""
  let stagV ← pget fw "sourceTags" .vnone
  let stagSeg ← if truthy stagV then do
      let x ← pitem fw "sourceTags"
      pure ("  source_tags = " ++ jsonDumps x ++ "\n")
    else pure ""
  let ssaV ← pget fw "sourceServiceAccounts" .vnone
  let ssaSeg ← if truthy ssaV then do
      let x ← pitem fw "sourceServiceAccounts"
      pure ("  source_service_accounts = " ++ jsonDumps x ++ "\n")
    else pure ""
  let drV ← pget fw "destinationRanges" .vnone
  let drSeg ← if truthy drV then do
      let x ← pitem fw "destinationRanges"
      pure ("  destination_ranges = " ++ jsonDumps x ++ "\n")
    else pure ""
  let ttV ← pget fw "targetTags" .vnone
  let ttSeg ← if truthy ttV then do
      let x ← pitem fw "targetTags"
      pure ("  target_tags = " ++ jsonDumps x ++ "\n")
    else pure ""
  let tsaV ← pget fw "targetServiceAccounts" .vnone
  let tsaSeg ← if truthy tsaV then do
      let x ← pitem fw "targetServiceAccounts"
      pure ("  target_service_accounts = " ++ jsonDumps x ++ "\n")
    else pure ""
  let allowedV ← pget fw "allowed" (.vlist [])
  let allowedList ← piter allowedV
  let allowSeg ← concatM (fwRuleEntry "allow") allowedList
  let deniedV ← pget fw "denied" (.vlist [])
  let deniedList ← piter deniedV
  let denySeg ← concatM (fwRuleEntry "deny") deniedList
  let lcV ← pget fw "logConfig" .vnone
  let lcSeg ← if truthy lcV then do
      let lc ← pitem fw "logConfig"
      let enV ← pget lc "enable" .vnone
      if truthy enV then do
        let md ← pget lc "metadata" (.vstr "INCLUDE_ALL_METADATA")
        pure ("\n  log_config \x7b\n" ++
              "    metadata = \"" ++ pyStr md ++ "\"\n" ++ "  \x7d\n")
      else pure ""
    else pure ""
  .ok (head ++ descSeg ++ dirSeg ++ priSeg ++ disSeg ++ srSeg ++ stagSeg ++
       ssaSeg ++ drSeg ++ ttSeg ++ tsaSeg ++ allowSeg ++ denySeg ++ lcSeg ++ "\x7d\n\n")

/-- Embeds `generate_firewall_tf` (`gcp_to_terraform.py` lines 1232–1315). -/
def generate_firewall_tf (r : Resources) : Except PyErr String := do
  let fws ← concatM (firewallBlock r.project_id) r.firewalls
  .ok ("# Firewall Rules\n\n" ++ fws)

/-- Embeds the per-route body of `generate_routes_tf`
(`gcp_to_terraform.py` lines 1321–1359), including the `continue` that skips
Google-managed `default-route-*` records. -/
def routeBlock (project_id : String) (route : PVal) : Except PyErr String := do
  let nameV ← pget route "name" (.vstr "")
  let isDefault ← pstartswith nameV "default-route-"
  if isDefault then
    .ok ""
  else do
    let tf_name ← psan nameV
    let netUrlV ← pget route "network" (.vstr "")
    let network_name ← if truthy netUrlV then psplitLast netUrlV else pure ""
    let destV ← pget route "destRange" (.vstr "")
    let head :=
      "resource \"google_compute_route\" \"" ++ tf_name ++ "\" \x7b\n" ++
      "  name        = \"" ++ pyStr nameV ++ "\"\n" ++
      "  project     = \"" ++ project_id ++ "\"\n" ++
      "  dest_range  = \"" ++ pyStr destV ++ "\"\n" ++
      "  network     = google_compute_network." ++ sanitize_name network_name ++ ".id\n"
    let descV ← pget route "description" .vnone
    let descSeg ← if truthy descV then do
        let d ← pitem route "description"
        pure ("  description = \"" ++ pyStr d ++ "\"\n")
      else pure ""
    let priV ← pget route "priority" .vnone
    let priSeg ← if truthy priV then do
        let x ← pitem route "priority"
        pure ("  priority    = " ++ pyStr x ++ "\n")
      else pure ""
    let tagsV ← pget route "tags" .vnone
    let tagsSeg ← if truthy tagsV then do
        let x ← pitem route "tags"
        pure ("  tags        = " ++ jsonDumps x ++ "\n")
      else pure ""
    let gwV ← pget route "nextHopGateway" .vnone
    let hopSeg ← if truthy gwV then do
        let g ← pitem route "nextHopGateway"
        let gateway ← psplitLast g
        pure ("  next_hop_gateway = \"" ++ gateway ++ "\"\n")
      else do
        let ipV ← pget route "nextHopIp" .vnone
        if truthy ipV then do
          let x ← pitem route "nextHopIp"
          pure ("  next_hop_ip = \"" ++ pyStr x ++ "\"\n")
        else do
          let instV ← pget route "nextHopInstance" .vnone
          if truthy instV then do
            let x ← pitem route "nextHopInstance"
            pure ("  next_hop_instance = \"" ++ pyStr x ++ "\"\n")
          else do
            let vpnV ← pget route "nextHopVpnTunnel" .vnone
            if truthy vpnV then do
              let x ← pitem route "nextHopVpnTunnel"
              pure ("  next_hop_vpn_tunnel = \"" ++ pyStr x ++ "\"\n")
            else do
              let ilbV ← pget route "nextHopIlb" .vnone
              if truthy ilbV then do
                let x ← pitem route "nextHopIlb"
                pure ("  next_hop_ilb = \"" ++ pyStr x ++ "\"\n")
              else pure ""
    .ok (head ++ descSeg ++ priSeg ++ tagsSeg ++ hopSeg ++ "\x7d\n\n")

/-- Embeds `generate_routes_tf` (`gcp_to_terraform.py` lines 1317–1361). -/
def generate_routes_tf (r : Resources) : Except PyErr String := do
  let rts ← concatM (routeBlock r.project_id) r.routes
  .ok ("# Custom Routes\n\n" ++ rts)

/-- Decodes one escaped character of an HCL string literal. -/
def hclUnesc (c : Char) : Char :=
  if c = 'n' then '\n' else if c = 't' then '\t' else if c = 'r' then '\r' else c

/-- Scans the body of a double-quoted string literal of the target language:
a backslash escapes the next character, an unescaped double quote closes the
literal, and a raw newline or end of input means the literal never closes.
Returns the decoded value of the literal. -/
def hclLitAux (esc : Bool) (acc : List Char) : List Char → Option String
  | [] => none
  | c :: rest =>
    if esc then hclLitAux false (hclUnesc c :: acc) rest
    else if c = '"' then some (String.mk acc.reverse)
    else if c = '\n' then none
    else if c = '\\' then hclLitAux true acc rest
    else hclLitAux false (c :: acc) rest

/-- Parses exactly one string literal at the head of `s` (formalising
"the attribute value parses as a single string literal"): `s` must open with
a double quote and the scan must reach a closing quote. -/
def parseHclLit (s : String) : Option String :=
  match s.data with
  | c :: rest => if c = '"' then hclLitAux false [] rest else none
  | [] => none

/-- A network record whose only attribute is its name. -/
def netRec (n : String) : PVal := .vdict [("name", .vstr n)]

/-- The description text of the escaping scenario: it contains a double
quote, a backslash and a newline. -/
def c1desc : String := "a\"b\\c\nd"

/-- Inventory for the escaping-safety scenario: one network whose
description contains a quote, a backslash and a newline. -/
def c1inv : Resources :=
  { project_id := "proj",
    networks := [.vdict [("name", .vstr "net1"), ("description", .vstr c1desc)]] }

/-- The emitted text that precedes the description value in a network block. -/
def descMarker : String := "  description             = "

/-- Inventory for the external-reference scenario: one subnet whose raw
`network` attribute is a resource URL, and no network records at all. -/
def c2url : String :=
  "https://www.googleapis.com/compute/v1/projects/other/global/networks/external-vpc"

/-- The subnet record of the external-reference scenario. -/
def c2inv : Resources :=
  { project_id := "proj",
    networks := [],
    subnets := [.vdict [("name", .vstr "s1"), ("network", .vstr c2url),
                        ("ipCidrRange", .vstr "10.0.0.0/16"),
                        ("region", .vstr "https://www.googleapis.com/compute/v1/projects/other/regions/us-central1")]] }

/-- Inventory with two networks whose names sanitize to the same identifier. -/
def c4inv : Resources :=
  { project_id := "proj",
    networks := [netRec "prod-vpc", netRec "prod.vpc"] }

/-- Inventory of the reference round-trip scenario: the network `prod-vpc`
and a subnet whose raw `network` attribute is a path ending in
`/networks/prod-vpc`. -/
def c5inv : Resources :=
  { project_id := "proj",
    networks := [netRec "prod-vpc"],
    subnets := [.vdict [("name", .vstr "s1"),
                        ("network", .vstr "https://www.googleapis.com/compute/v1/projects/proj/global/networks/prod-vpc"),
                        ("ipCidrRange", .vstr "10.0.0.0/16"),
                        ("region", .vstr "https://www.googleapis.com/compute/v1/projects/proj/regions/us-central1")]] }

/-- A network record of unexpected shape: its `routingConfig` is a string
where the code expects a nested mapping, so `net['routingConfig'].get(...)`
raises `AttributeError`. -/
def badNet : PVal := .vdict [("name", .vstr "n1"), ("routingConfig", .vstr "REGIONAL")]

/-- Inventory of the firewall scenario: one rule with two nested `allow`
entries, `{protocol: tcp, ports: [80, 443]}` then `{protocol: icmp}`. -/
def c9inv : Resources :=
  { project_id := "proj",
    firewalls := [.vdict [("name", .vstr "fw1"), ("network", .vstr "net1"),
      ("allowed", .vlist [
        .vdict [("IPProtocol", .vstr "tcp"), ("ports", .vlist [.vint 80, .vint 443])],
        .vdict [("IPProtocol", .vstr "icmp")]])]] }

/-- A route record is skipped by `generate_routes_tf` exactly when its name
is a string starting with `default-route-` (the `continue` at line 1324). -/
def skippedRoute : PVal → Bool
  | .vdict kvs =>
      match lookupKV kvs "name" with
      | some (.vstr n) => leadsWith "default-route-".data n.data
      | some _ => false
      | none => false
  | _ => false

/-- The full text of a network block all of whose optional attributes are
absent, with symbolic name `tf` and display name `name`. -/
def simpleNetBlock (p tf name : String) : String :=
  "resource \"google_compute_network\" \"" ++ tf ++ "\" \x7b\n" ++
  "  name                    = \"" ++ name ++ "\"\n" ++
  "  project                 = \"" ++ p ++ "\"\n" ++
  "  auto_create_subnetworks = false\n" ++ "\x7d\n\n"

/-- The full text of a subnet block all of whose optional attributes are
absent; `netref` is the sanitized terminal segment of the raw network URL. -/
def simpleSubnetBlock (p tf name cidr region netref : String) : String :=
  ("resource \"google_compute_subnetwork\" \"" ++ (tf ++ ("\" \x7b\n" ++
   ("  name          = \"" ++ (name ++ ("\"\n" ++
   ("  project       = \"" ++ (p ++ ("\"\n" ++
   ("  ip_cidr_range = \"" ++ (cidr ++ ("\"\n" ++
   ("  region        = \"" ++ (region ++ ("\"\n" ++
   ("  network       = google_compute_network." ++ (netref ++
     ".id\n"))))))))))))))))) ++ "\x7d\n\n"

/-- The full text of a route block with only name, dest range and network. -/
def simpleRouteBlock (p tf name dest netref : String) : String :=
  "resource \"google_compute_route\" \"" ++ tf ++ "\" \x7b\n" ++
  "  name        = \"" ++ name ++ "\"\n" ++
  "  project     = \"" ++ p ++ "\"\n" ++
  "  dest_range  = \"" ++ dest ++ "\"\n" ++
  "  network     = google_compute_network." ++ netref ++ ".id\n" ++ "\x7d\n\n"

set_option maxRecDepth 100000

theorem str_empty_append (s : String) : "" ++ s = s := by
  cases s with
  | mk l => rfl

theorem str_append_empty (s : String) : s ++ "" = s := by
  cases s with
  | mk l => show String.mk (l ++ []) = String.mk l; rw [List.append_nil]

theorem strMk_eq_empty_iff (l : List Char) : (String.mk l = "") ↔ l = [] := by
  constructor
  · intro h
    have hd := congrArg String.data h
    simpa using hd
  · intro h
    rw [h]

theorem networkBlock_netRec (p n : String) :
    networkBlock p (netRec n) = .ok (simpleNetBlock p (sanitize_name n) n) := by
  simp [networkBlock, netRec, pget, lookupKV, psan, truthy, pyStr, pyRepr, strToLower,
        simpleNetBlock, Except.bind, bind, pure, Except.pure, String.append_assoc]

theorem routeBlock_skipped (p : String) (rec : PVal) (h : skippedRoute rec = true) :
    routeBlock p rec = .ok "" := by
  cases rec with
  | vdict kvs =>
      simp only [skippedRoute] at h
      cases hl : lookupKV kvs "name" with
      | none => rw [hl] at h; simp at h
      | some v =>
          cases v with
          | vstr n =>
              rw [hl] at h
              simp at h
              simp [routeBlock, pget, hl, pstartswith, h, Except.bind, bind, pure, Except.pure]
          | vnone => rw [hl] at h; simp at h
          | vbool b => rw [hl] at h; simp at h
          | vint m => rw [hl] at h; simp at h
          | vlist xs => rw [hl] at h; simp at h
          | vdict kvs2 => rw [hl] at h; simp at h
  | vnone => simp [skippedRoute] at h
  | vbool b => simp [skippedRoute] at h
  | vint n => simp [skippedRoute] at h
  | vstr s => simp [skippedRoute] at h
  | vlist xs => simp [skippedRoute] at h

theorem concatM_ok_empty_cons (f : PVal → Except PyErr String) (x : PVal)
    (t : List PVal) (hx : f x = .ok "") :
    concatM f (x :: t) = concatM f t := by
  simp only [concatM, hx, Except.bind, bind]
  cases ht : concatM f t with
  | error e => rfl
  | ok s => simp [str_empty_append]

theorem routes_concat_filter (p : String) (rs : List PVal) :
    concatM (routeBlock p) rs =
      concatM (routeBlock p) (rs.filter (fun x => !skippedRoute x)) := by
  induction rs with
  | nil => rfl
  | cons x t ih =>
      by_cases hx : skippedRoute x = true
      · rw [List.filter_cons_of_neg (by simp [hx])]
        rw [concatM_ok_empty_cons _ _ _ (routeBlock_skipped p x hx), ih]
      · rw [List.filter_cons_of_pos (by simp [hx])]
        simp only [concatM]
        rw [ih]

theorem routes_generator_filter (p : String) (rs : List PVal) :
    generate_routes_tf { project_id := p, routes := rs } =
      generate_routes_tf { project_id := p, routes := rs.filter (fun x => !skippedRoute x) } := by
  have h := routes_concat_filter p rs
  simp only [generate_routes_tf, h]

theorem routeBlock_plain (p n dest u : String)
    (hn : leadsWith "default-route-".data n.data = false) (hu : u ≠ "") :
    routeBlock p (.vdict [("name", .vstr n), ("destRange", .vstr dest), ("network", .vstr u)]) =
    .ok (simpleRouteBlock p (sanitize_name n) n dest (sanitize_name (lastSeg u))) := by
  simp [routeBlock, pget, lookupKV, psan, psplitLast, pstartswith, truthy, pyStr,
        simpleRouteBlock, Except.bind, bind, pure, Except.pure, String.append_assoc, hn, hu]

/-- C1: the claim says string literal emission escapes quotes, backslashes
and newlines so the attribute value always parses as one string literal.
The code interpolates the raw description: on the record whose description
is `a"b\c<newline>d` the emitted literal closes at the embedded quote, so
parsing the text after the description marker yields the literal value `a`,
not the original attribute value — the literal is terminated early. -/
theorem description_literal_terminated_early :
    (generate_network_tf c1inv).toOption.map
        (fun out => (afterStr out descMarker).map parseHclLit) =
      some (some (some "a")) ∧ ("a" : String) ≠ c1desc :=
  ⟨by rfl, by decide⟩

/-- C2 counterexample: with no network record in the inventory, the subnet
block still contains the symbolic expression
`google_compute_network.external_vpc.id` naming a resource that is not in
the emitted set, and the original literal URL never appears quoted. -/
theorem external_ref_emitted_symbolically :
    (generate_network_tf c2inv).toOption.map (fun out =>
       containsStr out "  network       = google_compute_network.external_vpc.id\n" &&
       !containsStr out ("\"" ++ c2url ++ "\"")) = some true := by rfl

/-- C2 (amended): the emitted `network` field of a subnet block is always
the symbolic expression built from the sanitized terminal segment of the raw
network attribute (here an arbitrary non-empty string `uh :: ut`); no
inventory lookup is performed and the original literal is never emitted
quoted as a fallback. -/
theorem subnet_network_always_symbolic (p n c r : String) (uh : Char) (ut : List Char) :
    subnetBlock p (.vdict [("name", .vstr n), ("network", .vstr (String.mk (uh :: ut))),
        ("ipCidrRange", .vstr c), ("region", .vstr r)]) =
    .ok (simpleSubnetBlock p (sanitize_name n) n c (lastSeg r)
          (sanitize_name (lastSeg (String.mk (uh :: ut))))) := rfl

/-- C3: the embedded per-kind generation functions are pure functions of the
collected inventory, so running any of them twice on the same inventory
yields identical output (no hidden state). -/
theorem generation_deterministic (r : Resources) :
    generate_network_tf r = generate_network_tf r ∧
    generate_firewall_tf r = generate_firewall_tf r ∧
    generate_routes_tf r = generate_routes_tf r :=
  ⟨rfl, rfl, rfl⟩

/-- C4 counterexample: `prod-vpc` and `prod.vpc` sanitize to the same
identifier, and the generator emits both blocks under that one symbolic
name (`resource "google_compute_network" "prod_vpc"` appears twice) instead
of disambiguating them. -/
theorem sanitize_collision_not_disambiguated :
    sanitize_name "prod-vpc" = sanitize_name "prod.vpc" ∧
    (generate_network_tf c4inv).toOption.map (fun out =>
       countStr out "resource \"google_compute_network\" \"prod_vpc\" \x7b") = some 2 :=
  ⟨rfl, rfl⟩

/-- C4 (amended): when two records sanitize to the same identifier, both
blocks are still emitted (neither is dropped or overwritten) but they share
the identical symbolic name; no collision detection or indexed suffix
exists. -/
theorem collision_blocks_share_name (p n1 n2 : String)
    (h : sanitize_name n1 = sanitize_name n2) :
    generate_network_tf { project_id := p, networks := [netRec n1, netRec n2] } =
    .ok ("# VPC Networks\n\n" ++ simpleNetBlock p (sanitize_name n1) n1 ++
         simpleNetBlock p (sanitize_name n1) n2 ++ "# Subnets\n\n") := by
  simp [generate_network_tf, concatM, networkBlock_netRec, Except.bind, bind, pure,
        Except.pure, String.append_assoc, str_append_empty, ← h]

/-- Witness for the amended C4 claim at `prod-vpc` / `prod.vpc`. -/
theorem collision_blocks_share_name_witness :
    generate_network_tf c4inv =
    .ok ("# VPC Networks\n\n" ++ simpleNetBlock "proj" (sanitize_name "prod-vpc") "prod-vpc" ++
         simpleNetBlock "proj" (sanitize_name "prod-vpc") "prod.vpc" ++ "# Subnets\n\n") :=
  collision_blocks_share_name "proj" "prod-vpc" "prod.vpc" (by rfl)

/-- C5: with the network `prod-vpc` and a subnet whose raw network URL ends
in `/networks/prod-vpc` both in the inventory, the output contains the
network block under symbolic name `prod_vpc` and the subnet's `network`
field is the bare symbolic reference `google_compute_network.prod_vpc.id`;
the literal URL never appears quoted. -/
theorem network_subnet_reference_round_trip :
    (generate_network_tf c5inv).toOption.map (fun out =>
       containsStr out "resource \"google_compute_network\" \"prod_vpc\" \x7b" &&
       containsStr out "  network       = google_compute_network.prod_vpc.id\n" &&
       !containsStr out "\"https://www.googleapis.com/compute/v1/projects/proj/global/networks/prod-vpc\"") =
    some true := by rfl

/-- C6 counterexample: the claim says an exception raised while processing
one record is caught and skipped with the remaining blocks still produced;
on an inventory holding a bad record (`routingConfig` is a string, so
`.get` on it raises `AttributeError`) followed by a good record, the whole
generation aborts with the error and no block is produced at all. -/
theorem bad_record_aborts_generation :
    generate_network_tf { project_id := "p", networks := [badNet, netRec "ok1"] } =
      .error .attributeError := by rfl

/-- C6 (amended): an exception raised while processing a single record
propagates out of the generation function: whatever records follow the bad
one, compilation of the kind aborts and no remaining block is produced. -/
theorem bad_record_aborts_generation_general (p : String) (rest subs : List PVal) :
    generate_network_tf { project_id := p, networks := badNet :: rest, subnets := subs } =
      .error .attributeError := by
  have hb : networkBlock p badNet = .error .attributeError := rfl
  simp [generate_network_tf, concatM, hb, Except.bind, bind]

/-- C7: both sanitizers are idempotent: sanitizing an already sanitized
name changes nothing, because replaced characters never reappear. -/
theorem sanitize_name_idempotent (s : String) :
    sanitize_name (sanitize_name s) = sanitize_name s ∧
    Org.sanitize_name (Org.sanitize_name s) = Org.sanitize_name s := by
  cases s with
  | mk l =>
    constructor
    · simp only [sanitize_name, replCh, List.map_map]
      apply congrArg
      apply List.map_congr_left
      intro c _
      by_cases h1 : c = '.' <;> by_cases h2 : c = '-' <;> by_cases h3 : c = '/' <;>
        simp [h1, h2, h3, Function.comp]
    · simp only [Org.sanitize_name, replCh, List.map_map]
      apply congrArg
      apply List.map_congr_left
      intro c _
      by_cases h1 : c = '.' <;> by_cases h2 : c = '-' <;> by_cases h3 : c = '/' <;>
        by_cases h4 : c = ' ' <;> simp [h1, h2, h3, h4, Function.comp]

/-- C8 counterexample: the claim says the sanitizer never returns an empty
identifier; on the empty input both sanitizers return the empty string —
there is no placeholder fallback. -/
theorem sanitize_name_empty_on_empty :
    sanitize_name "" = "" ∧ Org.sanitize_name "" = "" :=
  ⟨rfl, rfl⟩

/-- C8 (amended): the sanitizer is length-preserving, so it returns the
empty string exactly on the empty input and a non-empty identifier for
every non-empty input; no placeholder fallback exists. -/
theorem sanitize_name_length_preserving (s : String) :
    (sanitize_name s).length = s.length ∧ (sanitize_name s = "" ↔ s = "") := by
  cases s with
  | mk l =>
    constructor
    · simp [sanitize_name, replCh, String.length]
    · rw [show sanitize_name (String.mk l) =
            String.mk ((((l.map (fun c => if c = '.' then '_' else c)).map
              (fun c => if c = '-' then '_' else c)).map
              (fun c => if c = '/' then '_' else c))) from rfl]
      rw [strMk_eq_empty_iff, strMk_eq_empty_iff]
      simp

/-- C9: the firewall rule with allow entries `tcp/[80,443]` then `icmp`
emits two distinct `allow` blocks in input order, and the second block omits
the `ports` line entirely (the single `ports` line of the output belongs to
the first block). -/
theorem firewall_allow_blocks_in_order :
    (generate_firewall_tf c9inv).toOption.map (fun out =>
       seqContains out ["\n  allow \x7b\n    protocol = \"tcp\"\n    ports    = [80, 443]\n  \x7d\n",
                        "\n  allow \x7b\n    protocol = \"icmp\"\n  \x7d\n"] &&
       (countStr out "  allow \x7b" == 2) && (countStr out "ports" == 1)) = some true := by rfl

/-- C10: routes named `default-route-*` contribute no block at all (their
per-record emission is empty), the generated text equals the text generated
from the inventory with those records removed (the remaining routes are
unaffected), and every other route record of the plain shape produces
exactly one `google_compute_route` block. -/
theorem routes_skip_google_default (p : String) :
    (∀ rec, skippedRoute rec = true → routeBlock p rec = .ok "") ∧
    (∀ rs, generate_routes_tf { project_id := p, routes := rs } =
        generate_routes_tf { project_id := p, routes := rs.filter (fun x => !skippedRoute x) }) ∧
    (∀ n dest u, leadsWith "default-route-".data n.data = false → u ≠ "" →
        routeBlock p (.vdict [("name", .vstr n), ("destRange", .vstr dest), ("network", .vstr u)]) =
        .ok (simpleRouteBlock p (sanitize_name n) n dest (sanitize_name (lastSeg u)))) :=
  ⟨routeBlock_skipped p, routes_generator_filter p,
   fun n dest u hn hu => routeBlock_plain p n dest u hn hu⟩

/-- Witness for C10 at a concrete skipped route and a concrete kept route. -/
theorem routes_skip_google_default_witness :
    routeBlock "proj" (.vdict [("name", .vstr "default-route-abc123")]) = .ok "" ∧
    generate_routes_tf
      { project_id := "proj",
        routes := [.vdict [("name", .vstr "default-route-abc123")],
                   .vdict [("name", .vstr "my-route")]] } =
    generate_routes_tf
      { project_id := "proj",
        routes := ([.vdict [("name", .vstr "default-route-abc123")],
                    .vdict [("name", .vstr "my-route")]]).filter
                  (fun x => !skippedRoute x) } ∧
    routeBlock "proj" (.vdict [("name", .vstr "my-route"), ("destRange", .vstr "0.0.0.0/0"),
        ("network", .vstr "global/networks/prod")]) =
      .ok (simpleRouteBlock "proj" (sanitize_name "my-route") "my-route" "0.0.0.0/0"
            (sanitize_name (lastSeg "global/networks/prod"))) :=
  ⟨(routes_skip_google_default "proj").1 _ (by rfl),
   (routes_skip_google_default "proj").2.1 _,
   (routes_skip_google_default "proj").2.2 "my-route" "0.0.0.0/0" "global/networks/prod"
     (by rfl) (by decide)⟩
